import Mathlib

/-!
Shallow embedding of the career recommendation scorer of `recommend_career`
(src/app.py, lines 251-303).

Career path records are Python dicts; the keys the scorer reads or writes are
modelled as explicit fields, with `Option` marking keys that may be absent
(`rec.get('interests', [])` reads such a key with a default, `'score' not in
rec` tests for one).  The user answer dict is modelled as an association list
with `List.lookup` playing the role of `dict.get`.

The endpoint has two branches:
* when `user_answers` is non-empty it builds a fresh record
  `{**rec, "score": score}` per catalog entry and sorts the new list by
  descending score (Python `list.sort(key=..., reverse=True)` is a stable
  sort, modelled here by a stable descending insertion sort);
* when `user_answers` is empty it sorts the catalog by descending
  `average_salary_usd` (missing salary defaults to 0) and then runs
  `for rec in general: if 'score' not in rec: rec['score'] = 0`, an in-place
  update of the very dicts held by the input list (Python `sorted` copies the
  list, not the records).  To make that mutation observable, `recommendCareer`
  returns a pair: the first component is the state of the input catalog's
  records after the call, the second is the returned recommendation list.
-/

structure CareerProfile where
  id : String
  name : String
  description : String
  skills_needed : List String
  average_salary_usd : Option Int
  interests : Option (List String)
  work_environment : Option (List String)
  impact_areas : Option (List String)
  score : Option Int
deriving DecidableEq

abbrev AnswerSet := List (String × String)

/-- Python `rec.get(field, [])`: an absent list-valued key defaults to `[]`. -/
def fieldD (o : Option (List String)) : List String := o.getD []

/-- Line 258: `if user_answers.get('q1') and user_answers['q1'] in
rec.get('interests', []): score += 3`.  A present entry is truthy exactly when
it is a non-empty string. -/
def stepQ1 (ua : AnswerSet) (rec : CareerProfile) (score : Int) : Int :=
  match List.lookup "q1" ua with
  | some v => if v ≠ "" ∧ v ∈ fieldD rec.interests then score + 3 else score
  | none => score

/-- Line 262: `if user_answers.get('q2') and user_answers['q2'] in
rec.get('interests', []): score += 3`. -/
def stepQ2 (ua : AnswerSet) (rec : CareerProfile) (score : Int) : Int :=
  match List.lookup "q2" ua with
  | some v => if v ≠ "" ∧ v ∈ fieldD rec.interests then score + 3 else score
  | none => score

/-- Line 266: `if user_answers.get('q3') and user_answers['q3'] in
rec.get('work_environment', []): score += 2`. -/
def stepQ3 (ua : AnswerSet) (rec : CareerProfile) (score : Int) : Int :=
  match List.lookup "q3" ua with
  | some v => if v ≠ "" ∧ v ∈ fieldD rec.work_environment then score + 2 else score
  | none => score

/-- Lines 270-273: `if user_answers.get('q4') == 'Yes' and 'Problem Solving'
in rec.get('interests', []): score += 4  elif ... == 'No' and 'Problem
Solving' not in ...: score += 1`. -/
def stepQ4 (ua : AnswerSet) (rec : CareerProfile) (score : Int) : Int :=
  if List.lookup "q4" ua = some "Yes" ∧ "Problem Solving" ∈ fieldD rec.interests then
    score + 4
  else if List.lookup "q4" ua = some "No" ∧ "Problem Solving" ∉ fieldD rec.interests then
    score + 1
  else score

/-- Lines 276-279: `if user_answers.get('q5') == 'Hands-on' and ('Independent'
in ... or 'Dynamic' in ...): score += 3  elif ... == 'Structured' and
'Collaborative' in ...: score += 2`. -/
def stepQ5 (ua : AnswerSet) (rec : CareerProfile) (score : Int) : Int :=
  if List.lookup "q5" ua = some "Hands-on" ∧
      ("Independent" ∈ fieldD rec.work_environment ∨
        "Dynamic" ∈ fieldD rec.work_environment) then
    score + 3
  else if List.lookup "q5" ua = some "Structured" ∧
      "Collaborative" ∈ fieldD rec.work_environment then
    score + 2
  else score

/-- Line 282: `if user_answers.get('q6') and user_answers['q6'] in
rec.get('impact_areas', []): score += 5`. -/
def stepQ6 (ua : AnswerSet) (rec : CareerProfile) (score : Int) : Int :=
  match List.lookup "q6" ua with
  | some v => if v ≠ "" ∧ v ∈ fieldD rec.impact_areas then score + 5 else score
  | none => score

/-- Lines 255-287: the per-profile score accumulated statement by statement,
with the final floor `if score == 0: score = 1`. -/
def scoreProfile (ua : AnswerSet) (rec : CareerProfile) : Int :=
  let score : Int := 0
  let score := stepQ1 ua rec score
  let score := stepQ2 ua rec score
  let score := stepQ3 ua rec score
  let score := stepQ4 ua rec score
  let score := stepQ5 ua rec score
  let score := stepQ6 ua rec score
  if score = 0 then 1 else score

/-- Line 289: `scored_recommendations.append({**rec, "score": score})`, a new
record with the score key set. -/
def applyScore (ua : AnswerSet) (rec : CareerProfile) : CareerProfile :=
  { rec with score := some (scoreProfile ua rec) }

/-- Lines 300-301: `if 'score' not in rec: rec['score'] = 0`. -/
def addDefaultScore (rec : CareerProfile) : CareerProfile :=
  if rec.score = none then { rec with score := some 0 } else rec

/-- Sort key of line 292: `lambda x: x['score']` (the key is always present
there; `getD 0` is only a total-function artifact). -/
def scoreKey (rec : CareerProfile) : Int := rec.score.getD 0

/-- Sort key of line 298: `x.get('average_salary_usd', 0)`. -/
def salaryKey (rec : CareerProfile) : Int := rec.average_salary_usd.getD 0

/-- Stable descending insertion: `x` is placed before the first element whose
key is less than or equal to its own, so earlier input elements stay ahead of
later ones with an equal key. -/
def insertKeyDesc (key : CareerProfile → Int) (x : CareerProfile) :
    List CareerProfile → List CareerProfile
  | [] => [x]
  | y :: l => if key y ≤ key x then x :: y :: l else y :: insertKeyDesc key x l

/-- Stable sort by descending key: the semantics of Python
`list.sort(key=key, reverse=True)` / `sorted(l, key=key, reverse=True)`. -/
def sortKeyDesc (key : CareerProfile → Int) : List CareerProfile → List CareerProfile
  | [] => []
  | x :: l => insertKeyDesc key x (sortKeyDesc key l)

/-- Lines 251-303 of `recommend_career`, from `scored_recommendations = []` to
the two returns, as a function of the fetched catalog and answer dict.  The
first component of the result is the post-call state of the input catalog's
records (the guest branch updates them in place through shared references);
the second component is the recommendation list that is serialized. -/
def recommendCareer (catalog : List CareerProfile) (ua : AnswerSet) :
    List CareerProfile × List CareerProfile :=
  if ua = [] then
    (catalog.map addDefaultScore, (sortKeyDesc salaryKey catalog).map addDefaultScore)
  else
    (catalog, sortKeyDesc scoreKey (catalog.map (applyScore ua)))

/-- The record that stands for a given catalog entry in the output list: the
freshly scored record in the personalized branch, the default-scored record in
the guest branch. -/
def annotateOne (ua : AnswerSet) (rec : CareerProfile) : CareerProfile :=
  if ua = [] then addDefaultScore rec else applyScore ua rec

/-- Rule table of the specification, read literally: a present `q1` answer in
the profile interests is worth 3 points, with no condition that the answer be
a non-empty (truthy) string.  Used to compare the stated rule set with the
code. -/
def claimScore (ua : AnswerSet) (rec : CareerProfile) : Int :=
  let r1 : Int := match List.lookup "q1" ua with
    | some v => if v ∈ fieldD rec.interests then 3 else 0
    | none => 0
  let r2 : Int := match List.lookup "q2" ua with
    | some v => if v ∈ fieldD rec.interests then 3 else 0
    | none => 0
  let r3 : Int := match List.lookup "q3" ua with
    | some v => if v ∈ fieldD rec.work_environment then 2 else 0
    | none => 0
  let r4 : Int :=
    if List.lookup "q4" ua = some "Yes" ∧ "Problem Solving" ∈ fieldD rec.interests then 4 else 0
  let r5 : Int :=
    if List.lookup "q4" ua = some "No" ∧ "Problem Solving" ∉ fieldD rec.interests then 1 else 0
  let r6 : Int :=
    if List.lookup "q5" ua = some "Hands-on" ∧
        ("Independent" ∈ fieldD rec.work_environment ∨
          "Dynamic" ∈ fieldD rec.work_environment) then 3 else 0
  let r7 : Int :=
    if List.lookup "q5" ua = some "Structured" ∧
        "Collaborative" ∈ fieldD rec.work_environment then 2 else 0
  let r8 : Int := match List.lookup "q6" ua with
    | some v => if v ∈ fieldD rec.impact_areas then 5 else 0
    | none => 0
  let total := r1 + r2 + r3 + r4 + r5 + r6 + r7 + r8
  if total = 0 then 1 else total

/-- Amended rule for q1: as the specification states it, except that an answer
equal to the empty string is treated as absent (the code guards each lookup
with Python truthiness). -/
def amendedRuleQ1 (ua : AnswerSet) (rec : CareerProfile) : Int :=
  match List.lookup "q1" ua with
  | some v => if v ≠ "" ∧ v ∈ fieldD rec.interests then 3 else 0
  | none => 0

/-- Amended rule for q2 (interests, 3 points, empty-string answer is absent). -/
def amendedRuleQ2 (ua : AnswerSet) (rec : CareerProfile) : Int :=
  match List.lookup "q2" ua with
  | some v => if v ≠ "" ∧ v ∈ fieldD rec.interests then 3 else 0
  | none => 0

/-- Amended rule for q3 (work environment, 2 points, empty-string answer is
absent). -/
def amendedRuleQ3 (ua : AnswerSet) (rec : CareerProfile) : Int :=
  match List.lookup "q3" ua with
  | some v => if v ≠ "" ∧ v ∈ fieldD rec.work_environment then 2 else 0
  | none => 0

/-- Rule for q4 = Yes, exactly as the specification states it. -/
def amendedRuleQ4Yes (ua : AnswerSet) (rec : CareerProfile) : Int :=
  if List.lookup "q4" ua = some "Yes" ∧ "Problem Solving" ∈ fieldD rec.interests then 4 else 0

/-- Rule for q4 = No, exactly as the specification states it. -/
def amendedRuleQ4No (ua : AnswerSet) (rec : CareerProfile) : Int :=
  if List.lookup "q4" ua = some "No" ∧ "Problem Solving" ∉ fieldD rec.interests then 1 else 0

/-- Rule for q5 = Hands-on, exactly as the specification states it. -/
def amendedRuleQ5Hands (ua : AnswerSet) (rec : CareerProfile) : Int :=
  if List.lookup "q5" ua = some "Hands-on" ∧
      ("Independent" ∈ fieldD rec.work_environment ∨
        "Dynamic" ∈ fieldD rec.work_environment) then 3 else 0

/-- Rule for q5 = Structured, exactly as the specification states it. -/
def amendedRuleQ5Struct (ua : AnswerSet) (rec : CareerProfile) : Int :=
  if List.lookup "q5" ua = some "Structured" ∧
      "Collaborative" ∈ fieldD rec.work_environment then 2 else 0

/-- Amended rule for q6 (impact areas, 5 points, empty-string answer is
absent). -/
def amendedRuleQ6 (ua : AnswerSet) (rec : CareerProfile) : Int :=
  match List.lookup "q6" ua with
  | some v => if v ≠ "" ∧ v ∈ fieldD rec.impact_areas then 5 else 0
  | none => 0

/-- Additive total of the eight independent rules, in the amended reading. -/
def amendedTotal (ua : AnswerSet) (rec : CareerProfile) : Int :=
  amendedRuleQ1 ua rec + amendedRuleQ2 ua rec + amendedRuleQ3 ua rec +
    amendedRuleQ4Yes ua rec + amendedRuleQ4No ua rec +
    amendedRuleQ5Hands ua rec + amendedRuleQ5Struct ua rec + amendedRuleQ6 ua rec

/-- Amended claim C1 formula: additive sum of the independent rules, clamped
from 0 to 1. -/
def claimScoreAmended (ua : AnswerSet) (rec : CareerProfile) : Int :=
  if amendedTotal ua rec = 0 then 1 else amendedTotal ua rec

/-- Replace each absent optional matching field by an explicitly empty one. -/
def fillEmptyFields (rec : CareerProfile) : CareerProfile :=
  { rec with
    interests := some (fieldD rec.interests)
    work_environment := some (fieldD rec.work_environment)
    impact_areas := some (fieldD rec.impact_areas) }

/-- Catalogs whose records carry no score key, which is what every catalog of
CareerProfile reference data looks like (a score only ever appears on records
the endpoint itself has annotated). -/
def NoScoreKey (catalog : List CareerProfile) : Prop :=
  ∀ rec ∈ catalog, rec.score = none

instance (catalog : List CareerProfile) : Decidable (NoScoreKey catalog) :=
  inferInstanceAs (Decidable (∀ rec ∈ catalog, rec.score = none))

/-- A record with every optional key absent, used as a base for the concrete
inputs below. -/
def blankProfile : CareerProfile :=
  { id := "p0", name := "P0", description := "", skills_needed := [],
    average_salary_usd := none, interests := none, work_environment := none,
    impact_areas := none, score := none }

/-- Scenario B profile of the specification. -/
def scenarioBProfile : CareerProfile :=
  { blankProfile with
    id := "b"
    interests := some ["Math", "Science"]
    work_environment := some ["Independent"]
    impact_areas := some ["Analyze data and solve complex problems"] }

/-- Scenario B answers of the specification. -/
def scenarioBAnswers : AnswerSet :=
  [("q1", "Math"), ("q3", "Independent"),
   ("q6", "Analyze data and solve complex problems")]

/-- A profile whose interests list contains the empty string. -/
def emptyStringProfile : CareerProfile :=
  { blankProfile with id := "e", interests := some [""] }

/-- A non-empty answer dict whose q1 entry is the empty string. -/
def emptyStringAnswers : AnswerSet := [("q1", "")]

/-- A low-salary catalog record. -/
def lowSalaryProfile : CareerProfile :=
  { blankProfile with id := "a", average_salary_usd := some 50000 }

/-- A high-salary catalog record. -/
def highSalaryProfile : CareerProfile :=
  { blankProfile with id := "b", average_salary_usd := some 100000 }

theorem stepQ1_eq (ua : AnswerSet) (rec : CareerProfile) (s : Int) :
    stepQ1 ua rec s = s + amendedRuleQ1 ua rec := by
  unfold stepQ1 amendedRuleQ1
  cases List.lookup "q1" ua with
  | none => show s = s + (0 : Int); omega
  | some v =>
      show (if v ≠ "" ∧ v ∈ fieldD rec.interests then s + 3 else s) =
        s + if v ≠ "" ∧ v ∈ fieldD rec.interests then 3 else 0
      split_ifs <;> omega

theorem stepQ2_eq (ua : AnswerSet) (rec : CareerProfile) (s : Int) :
    stepQ2 ua rec s = s + amendedRuleQ2 ua rec := by
  unfold stepQ2 amendedRuleQ2
  cases List.lookup "q2" ua with
  | none => show s = s + (0 : Int); omega
  | some v =>
      show (if v ≠ "" ∧ v ∈ fieldD rec.interests then s + 3 else s) =
        s + if v ≠ "" ∧ v ∈ fieldD rec.interests then 3 else 0
      split_ifs <;> omega

theorem stepQ3_eq (ua : AnswerSet) (rec : CareerProfile) (s : Int) :
    stepQ3 ua rec s = s + amendedRuleQ3 ua rec := by
  unfold stepQ3 amendedRuleQ3
  cases List.lookup "q3" ua with
  | none => show s = s + (0 : Int); omega
  | some v =>
      show (if v ≠ "" ∧ v ∈ fieldD rec.work_environment then s + 2 else s) =
        s + if v ≠ "" ∧ v ∈ fieldD rec.work_environment then 2 else 0
      split_ifs <;> omega

theorem stepQ6_eq (ua : AnswerSet) (rec : CareerProfile) (s : Int) :
    stepQ6 ua rec s = s + amendedRuleQ6 ua rec := by
  unfold stepQ6 amendedRuleQ6
  cases List.lookup "q6" ua with
  | none => show s = s + (0 : Int); omega
  | some v =>
      show (if v ≠ "" ∧ v ∈ fieldD rec.impact_areas then s + 5 else s) =
        s + if v ≠ "" ∧ v ∈ fieldD rec.impact_areas then 5 else 0
      split_ifs <;> omega

theorem stepQ4_eq (ua : AnswerSet) (rec : CareerProfile) (s : Int) :
    stepQ4 ua rec s = s + amendedRuleQ4Yes ua rec + amendedRuleQ4No ua rec := by
  unfold stepQ4 amendedRuleQ4Yes amendedRuleQ4No
  by_cases hY : List.lookup "q4" ua = some "Yes" ∧ "Problem Solving" ∈ fieldD rec.interests
  · by_cases hN : List.lookup "q4" ua = some "No" ∧ "Problem Solving" ∉ fieldD rec.interests
    · exact absurd hY.2 hN.2
    · simp only [if_pos hY, if_neg hN]; omega
  · by_cases hN : List.lookup "q4" ua = some "No" ∧ "Problem Solving" ∉ fieldD rec.interests
    · simp only [if_pos hN, if_neg hY]; omega
    · simp only [if_neg hY, if_neg hN]; omega

theorem stepQ5_eq (ua : AnswerSet) (rec : CareerProfile) (s : Int) :
    stepQ5 ua rec s = s + amendedRuleQ5Hands ua rec + amendedRuleQ5Struct ua rec := by
  unfold stepQ5 amendedRuleQ5Hands amendedRuleQ5Struct
  by_cases hH : List.lookup "q5" ua = some "Hands-on" ∧
      ("Independent" ∈ fieldD rec.work_environment ∨ "Dynamic" ∈ fieldD rec.work_environment)
  · by_cases hS : List.lookup "q5" ua = some "Structured" ∧
        "Collaborative" ∈ fieldD rec.work_environment
    · exact absurd (Option.some.inj (hH.1.symm.trans hS.1)) (by decide)
    · simp only [if_pos hH, if_neg hS]; omega
  · by_cases hS : List.lookup "q5" ua = some "Structured" ∧
        "Collaborative" ∈ fieldD rec.work_environment
    · simp only [if_pos hS, if_neg hH]; omega
    · simp only [if_neg hH, if_neg hS]; omega

/-- The sequentially accumulated score of the code equals the clamped additive
total of the eight independent rules. -/
theorem scoreProfile_eq_clamped_total (ua : AnswerSet) (rec : CareerProfile) :
    scoreProfile ua rec = if amendedTotal ua rec = 0 then 1 else amendedTotal ua rec := by
  show (if stepQ6 ua rec (stepQ5 ua rec (stepQ4 ua rec (stepQ3 ua rec
      (stepQ2 ua rec (stepQ1 ua rec 0))))) = 0 then 1
    else stepQ6 ua rec (stepQ5 ua rec (stepQ4 ua rec (stepQ3 ua rec
      (stepQ2 ua rec (stepQ1 ua rec 0)))))) =
    if amendedTotal ua rec = 0 then 1 else amendedTotal ua rec
  unfold amendedTotal
  rw [stepQ1_eq, stepQ2_eq, stepQ3_eq, stepQ4_eq, stepQ5_eq, stepQ6_eq]
  split_ifs <;> omega

theorem perm_insertKeyDesc (key : CareerProfile → Int) (x : CareerProfile) :
    ∀ m : List CareerProfile, (insertKeyDesc key x m).Perm (x :: m)
  | [] => List.Perm.refl _
  | y :: l => by
      unfold insertKeyDesc
      split_ifs
      · exact List.Perm.refl _
      · exact ((perm_insertKeyDesc key x l).cons y).trans (List.Perm.swap x y l)

theorem perm_sortKeyDesc (key : CareerProfile → Int) :
    ∀ l : List CareerProfile, (sortKeyDesc key l).Perm l
  | [] => List.Perm.refl _
  | x :: l => by
      unfold sortKeyDesc
      exact (perm_insertKeyDesc key x (sortKeyDesc key l)).trans
        ((perm_sortKeyDesc key l).cons x)

theorem length_sortKeyDesc (key : CareerProfile → Int) (l : List CareerProfile) :
    (sortKeyDesc key l).length = l.length :=
  (perm_sortKeyDesc key l).length_eq

theorem mem_sortKeyDesc (key : CareerProfile → Int) (l : List CareerProfile)
    (x : CareerProfile) : x ∈ sortKeyDesc key l ↔ x ∈ l :=
  (perm_sortKeyDesc key l).mem_iff

theorem pairwise_insertKeyDesc (key : CareerProfile → Int) (x : CareerProfile) :
    ∀ m : List CareerProfile, m.Pairwise (fun a b => key b ≤ key a) →
      (insertKeyDesc key x m).Pairwise (fun a b => key b ≤ key a)
  | [], _ => List.pairwise_singleton _ _
  | y :: l, h => by
      unfold insertKeyDesc
      rcases List.pairwise_cons.mp h with ⟨hy, hl⟩
      split_ifs with hle
      · refine List.pairwise_cons.mpr ⟨?_, h⟩
        intro z hz
        rcases List.mem_cons.mp hz with hz | hz
        · exact hz ▸ hle
        · exact le_trans (hy z hz) hle
      · refine List.pairwise_cons.mpr ⟨?_, pairwise_insertKeyDesc key x l hl⟩
        intro z hz
        rcases List.mem_cons.mp ((perm_insertKeyDesc key x l).mem_iff.mp hz) with hz | hz
        · exact hz ▸ le_of_not_le hle
        · exact hy z hz

theorem pairwise_sortKeyDesc (key : CareerProfile → Int) :
    ∀ l : List CareerProfile,
      (sortKeyDesc key l).Pairwise (fun a b => key b ≤ key a)
  | [] => List.Pairwise.nil
  | x :: l => by
      unfold sortKeyDesc
      exact pairwise_insertKeyDesc key x _ (pairwise_sortKeyDesc key l)

theorem filter_insertKeyDesc (key : CareerProfile → Int) (s : Int) (x : CareerProfile) :
    ∀ m : List CareerProfile,
      (insertKeyDesc key x m).filter (fun r => key r == s) =
        if key x = s then x :: m.filter (fun r => key r == s)
        else m.filter (fun r => key r == s)
  | [] => by
      unfold insertKeyDesc
      by_cases hx : key x = s <;> simp [List.filter_cons, hx]
  | y :: l => by
      unfold insertKeyDesc
      split_ifs with hle hx hx
      · simp [List.filter_cons, hx]
      · simp [List.filter_cons, hx]
      · have hy : ¬ key y = s := by
          intro hys
          exact hle (le_of_eq (hys.trans hx.symm))
        rw [List.filter_cons, List.filter_cons]
        simp only [hy, hx, beq_iff_eq, if_true, if_false, if_neg hy]
        rw [filter_insertKeyDesc key s x l]
        simp [hx]
      · rw [List.filter_cons, List.filter_cons]
        by_cases hy : key y = s
        · simp only [hy, beq_iff_eq, if_pos rfl]
          rw [filter_insertKeyDesc key s x l]
          simp [hx]
        · simp only [beq_iff_eq, if_neg hy]
          rw [filter_insertKeyDesc key s x l]
          simp [hx]

theorem filter_sortKeyDesc (key : CareerProfile → Int) (s : Int) :
    ∀ l : List CareerProfile,
      (sortKeyDesc key l).filter (fun r => key r == s) =
        l.filter (fun r => key r == s)
  | [] => rfl
  | x :: l => by
      unfold sortKeyDesc
      rw [filter_insertKeyDesc key s x, List.filter_cons]
      by_cases hx : key x = s
      · simp [hx, filter_sortKeyDesc key s l]
      · simp [hx, filter_sortKeyDesc key s l]

theorem amendedRuleQ1_bounds (ua : AnswerSet) (rec : CareerProfile) :
    0 ≤ amendedRuleQ1 ua rec ∧ amendedRuleQ1 ua rec ≤ 3 := by
  unfold amendedRuleQ1
  cases List.lookup "q1" ua with
  | none => show (0 : Int) ≤ 0 ∧ (0 : Int) ≤ 3; omega
  | some v =>
      show 0 ≤ (if v ≠ "" ∧ v ∈ fieldD rec.interests then (3 : Int) else 0) ∧
        (if v ≠ "" ∧ v ∈ fieldD rec.interests then (3 : Int) else 0) ≤ 3
      split_ifs <;> omega

theorem amendedRuleQ2_bounds (ua : AnswerSet) (rec : CareerProfile) :
    0 ≤ amendedRuleQ2 ua rec ∧ amendedRuleQ2 ua rec ≤ 3 := by
  unfold amendedRuleQ2
  cases List.lookup "q2" ua with
  | none => show (0 : Int) ≤ 0 ∧ (0 : Int) ≤ 3; omega
  | some v =>
      show 0 ≤ (if v ≠ "" ∧ v ∈ fieldD rec.interests then (3 : Int) else 0) ∧
        (if v ≠ "" ∧ v ∈ fieldD rec.interests then (3 : Int) else 0) ≤ 3
      split_ifs <;> omega

theorem amendedRuleQ3_bounds (ua : AnswerSet) (rec : CareerProfile) :
    0 ≤ amendedRuleQ3 ua rec ∧ amendedRuleQ3 ua rec ≤ 2 := by
  unfold amendedRuleQ3
  cases List.lookup "q3" ua with
  | none => show (0 : Int) ≤ 0 ∧ (0 : Int) ≤ 2; omega
  | some v =>
      show 0 ≤ (if v ≠ "" ∧ v ∈ fieldD rec.work_environment then (2 : Int) else 0) ∧
        (if v ≠ "" ∧ v ∈ fieldD rec.work_environment then (2 : Int) else 0) ≤ 2
      split_ifs <;> omega

theorem amendedRuleQ6_bounds (ua : AnswerSet) (rec : CareerProfile) :
    0 ≤ amendedRuleQ6 ua rec ∧ amendedRuleQ6 ua rec ≤ 5 := by
  unfold amendedRuleQ6
  cases List.lookup "q6" ua with
  | none => show (0 : Int) ≤ 0 ∧ (0 : Int) ≤ 5; omega
  | some v =>
      show 0 ≤ (if v ≠ "" ∧ v ∈ fieldD rec.impact_areas then (5 : Int) else 0) ∧
        (if v ≠ "" ∧ v ∈ fieldD rec.impact_areas then (5 : Int) else 0) ≤ 5
      split_ifs <;> omega

theorem amendedRuleQ4_bounds (ua : AnswerSet) (rec : CareerProfile) :
    0 ≤ amendedRuleQ4Yes ua rec ∧ 0 ≤ amendedRuleQ4No ua rec ∧
      amendedRuleQ4Yes ua rec + amendedRuleQ4No ua rec ≤ 4 := by
  unfold amendedRuleQ4Yes amendedRuleQ4No
  by_cases hY : List.lookup "q4" ua = some "Yes" ∧ "Problem Solving" ∈ fieldD rec.interests
  · by_cases hN : List.lookup "q4" ua = some "No" ∧ "Problem Solving" ∉ fieldD rec.interests
    · exact absurd hY.2 hN.2
    · simp only [if_pos hY, if_neg hN]; omega
  · by_cases hN : List.lookup "q4" ua = some "No" ∧ "Problem Solving" ∉ fieldD rec.interests
    · simp only [if_pos hN, if_neg hY]; omega
    · simp only [if_neg hY, if_neg hN]; omega

theorem amendedRuleQ5_bounds (ua : AnswerSet) (rec : CareerProfile) :
    0 ≤ amendedRuleQ5Hands ua rec ∧ 0 ≤ amendedRuleQ5Struct ua rec ∧
      amendedRuleQ5Hands ua rec + amendedRuleQ5Struct ua rec ≤ 3 := by
  unfold amendedRuleQ5Hands amendedRuleQ5Struct
  by_cases hH : List.lookup "q5" ua = some "Hands-on" ∧
      ("Independent" ∈ fieldD rec.work_environment ∨ "Dynamic" ∈ fieldD rec.work_environment)
  · by_cases hS : List.lookup "q5" ua = some "Structured" ∧
        "Collaborative" ∈ fieldD rec.work_environment
    · exact absurd (Option.some.inj (hH.1.symm.trans hS.1)) (by decide)
    · simp only [if_pos hH, if_neg hS]; omega
  · by_cases hS : List.lookup "q5" ua = some "Structured" ∧
        "Collaborative" ∈ fieldD rec.work_environment
    · simp only [if_pos hS, if_neg hH]; omega
    · simp only [if_neg hH, if_neg hS]; omega

/-- The personalized per-profile score always lies in the range 1..20. -/
theorem scoreProfile_bounds (ua : AnswerSet) (rec : CareerProfile) :
    1 ≤ scoreProfile ua rec ∧ scoreProfile ua rec ≤ 20 := by
  rw [scoreProfile_eq_clamped_total]
  have h1 := amendedRuleQ1_bounds ua rec
  have h2 := amendedRuleQ2_bounds ua rec
  have h3 := amendedRuleQ3_bounds ua rec
  have h4 := amendedRuleQ4_bounds ua rec
  have h5 := amendedRuleQ5_bounds ua rec
  have h6 := amendedRuleQ6_bounds ua rec
  unfold amendedTotal
  split_ifs <;> omega

/-- Branch characterization: with a non-empty answer dict the endpoint leaves
its input alone and returns the freshly scored records sorted by score. -/
theorem recommendCareer_of_ne (catalog : List CareerProfile) (ua : AnswerSet)
    (h : ua ≠ []) :
    recommendCareer catalog ua =
      (catalog, sortKeyDesc scoreKey (catalog.map (applyScore ua))) := by
  unfold recommendCareer
  rw [if_neg h]

/-- Branch characterization: with the empty answer dict the endpoint updates
the catalog records in place and returns them sorted by salary. -/
theorem recommendCareer_of_empty (catalog : List CareerProfile) :
    recommendCareer catalog [] =
      (catalog.map addDefaultScore,
        (sortKeyDesc salaryKey catalog).map addDefaultScore) := rfl

theorem salaryKey_addDefaultScore (rec : CareerProfile) :
    salaryKey (addDefaultScore rec) = salaryKey rec := by
  unfold addDefaultScore
  split_ifs <;> rfl

theorem guest_scores_zero (catalog : List CareerProfile) (h : NoScoreKey catalog) :
    ∀ rec ∈ (recommendCareer catalog []).2, rec.score = some 0 := by
  intro rec hrec
  rw [recommendCareer_of_empty] at hrec
  rcases List.mem_map.mp hrec with ⟨p, hp, rfl⟩
  have hpc : p ∈ catalog := (mem_sortKeyDesc salaryKey catalog p).mp hp
  unfold addDefaultScore
  rw [if_pos (h p hpc)]

/-- Claim C1 (corrected statement).  For every profile and every non-empty
answer dict, the computed score is the clamped additive sum of the eight
independent rules, where for the membership questions q1, q2, q3 and q6 an
answer equal to the empty string is treated as absent (the code guards each
of those lookups with Python truthiness); and the Scenario B profile with the
Scenario B answers scores 10. -/
theorem C1_scoring_formula :
    (∀ (ua : AnswerSet) (rec : CareerProfile), ua ≠ [] →
        scoreProfile ua rec = claimScoreAmended ua rec) ∧
      scoreProfile scenarioBAnswers scenarioBProfile = 10 := by
  constructor
  · intro ua rec _
    rw [scoreProfile_eq_clamped_total]
    rfl
  · decide

/-- Claim C1, the literal rule set refuted: with the non-empty answer dict
mapping q1 to the empty string and a profile whose interests contain the
empty string, the rule table as stated awards 3 points, but the code skips
the rule (the empty string is falsy) and clamps 0 to 1. -/
theorem C1_counterexample :
    emptyStringAnswers ≠ [] ∧
      scoreProfile emptyStringAnswers emptyStringProfile = 1 ∧
      claimScore emptyStringAnswers emptyStringProfile = 3 ∧
      scoreProfile emptyStringAnswers emptyStringProfile ≠
        claimScore emptyStringAnswers emptyStringProfile := by decide

/-- Witness for C1: the corrected formula applied at Scenario B. -/
theorem C1_witness :
    scoreProfile scenarioBAnswers scenarioBProfile =
      claimScoreAmended scenarioBAnswers scenarioBProfile :=
  C1_scoring_formula.1 scenarioBAnswers scenarioBProfile (by decide)

/-- Claim C2.  For every catalog and non-empty answer dict the returned list
is non-increasing in score, and each equal-score class appears in exactly the
catalog input order (the filter equation is stability: ties keep the relative
order they have in the scored catalog, which `map` takes in input order). -/
theorem C2_sorted_stable :
    ∀ (catalog : List CareerProfile) (ua : AnswerSet), ua ≠ [] →
      ((recommendCareer catalog ua).2.Pairwise (fun a b => scoreKey b ≤ scoreKey a) ∧
        ∀ s : Int,
          (recommendCareer catalog ua).2.filter (fun r => scoreKey r == s) =
            (catalog.map (applyScore ua)).filter (fun r => scoreKey r == s)) := by
  intro catalog ua h
  rw [recommendCareer_of_ne catalog ua h]
  exact ⟨pairwise_sortKeyDesc scoreKey _, fun s => filter_sortKeyDesc scoreKey s _⟩

/-- Witness for C2 at a concrete two-profile catalog. -/
theorem C2_witness :
    (recommendCareer [lowSalaryProfile, highSalaryProfile] scenarioBAnswers).2.Pairwise
      (fun a b => scoreKey b ≤ scoreKey a) :=
  (C2_sorted_stable [lowSalaryProfile, highSalaryProfile] scenarioBAnswers (by decide)).1

/-- Claim C3.  For every catalog (empty included) and every answer dict, the
returned list has exactly the catalog's length. -/
theorem C3_length_preserved (catalog : List CareerProfile) (ua : AnswerSet) :
    (recommendCareer catalog ua).2.length = catalog.length := by
  unfold recommendCareer
  split_ifs <;> simp [length_sortKeyDesc]

/-- Claim C4 refuted.  With the empty answer dict, the guest branch updates
the catalog's records in place (`rec['score'] = 0` on the very dicts the
input list holds), so the input profiles are not unchanged after the call. -/
theorem C4_counterexample :
    (recommendCareer [blankProfile] []).1 ≠ [blankProfile] := by decide

/-- Claim C4 (corrected statement).  With a non-empty answer dict the scorer
leaves the input catalog untouched and every returned record carries its own
freshly written score key; with the empty answer dict the call rewrites the
input records themselves, adding a zero score to each record that lacks one. -/
theorem C4_mutation_amended :
    (∀ (catalog : List CareerProfile) (ua : AnswerSet), ua ≠ [] →
        (recommendCareer catalog ua).1 = catalog ∧
          ∀ rec ∈ (recommendCareer catalog ua).2, rec.score.isSome) ∧
      ∀ catalog : List CareerProfile,
        (recommendCareer catalog []).1 = catalog.map addDefaultScore := by
  constructor
  · intro catalog ua h
    rw [recommendCareer_of_ne catalog ua h]
    refine ⟨rfl, ?_⟩
    intro rec hrec
    rcases List.mem_map.mp ((mem_sortKeyDesc scoreKey _ rec).mp hrec) with ⟨p, _, rfl⟩
    rfl
  · intro catalog
    rfl

/-- Witness for C4: the personalized branch leaves a concrete catalog
unchanged. -/
theorem C4_witness :
    (recommendCareer [blankProfile] scenarioBAnswers).1 = [blankProfile] :=
  (C4_mutation_amended.1 [blankProfile] scenarioBAnswers (by decide)).1

/-- Claim C5.  For every catalog of CareerProfile reference data (records
carry no score key, as in the data model), the empty answer dict makes every
returned record carry score 0; the scoring rules are never reached in this
branch. -/
theorem C5_empty_answers_zero :
    ∀ catalog : List CareerProfile, NoScoreKey catalog →
      ∀ rec ∈ (recommendCareer catalog []).2, rec.score = some 0 :=
  guest_scores_zero

/-- Witness for C5 at a concrete one-profile catalog. -/
theorem C5_witness :
    (addDefaultScore blankProfile).score = some 0 :=
  C5_empty_answers_zero [blankProfile] (by decide) (addDefaultScore blankProfile) (by decide)

/-- Claim C6 refuted.  On the catalog [low salary, high salary] with the
empty answer dict, the code returns scores 0 (not 1) and reorders by
descending salary (not input order). -/
theorem C6_counterexample :
    ¬ ((recommendCareer [lowSalaryProfile, highSalaryProfile] []).2.map
          (fun rec => rec.score) = [some 1, some 1] ∧
        (recommendCareer [lowSalaryProfile, highSalaryProfile] []).2.map
          (fun rec => rec.id) = ["a", "b"]) := by decide

/-- Claim C6 (corrected statement).  With the empty answer dict every
returned record has score 0 (not 1), and the output is ordered by descending
average salary — non-increasing salaries, stably, with equal-salary classes in
catalog input order — rather than left in input order. -/
theorem C6_empty_answers_salary_order :
    ∀ catalog : List CareerProfile, NoScoreKey catalog →
      ((∀ rec ∈ (recommendCareer catalog []).2, rec.score = some 0) ∧
        (recommendCareer catalog []).2.Pairwise (fun a b => salaryKey b ≤ salaryKey a) ∧
        ∀ s : Int,
          (recommendCareer catalog []).2.filter (fun r => salaryKey r == s) =
            (catalog.map addDefaultScore).filter (fun r => salaryKey r == s)) := by
  intro catalog h
  refine ⟨guest_scores_zero catalog h, ?_, ?_⟩
  · rw [recommendCareer_of_empty]
    show ((sortKeyDesc salaryKey catalog).map addDefaultScore).Pairwise
      (fun a b => salaryKey b ≤ salaryKey a)
    rw [List.pairwise_map]
    simp only [salaryKey_addDefaultScore]
    exact pairwise_sortKeyDesc salaryKey catalog
  · intro s
    rw [recommendCareer_of_empty]
    show ((sortKeyDesc salaryKey catalog).map addDefaultScore).filter
        (fun r => salaryKey r == s) =
      (catalog.map addDefaultScore).filter (fun r => salaryKey r == s)
    have hcomp : ((fun r => salaryKey r == s) ∘ addDefaultScore) =
        fun r : CareerProfile => salaryKey r == s := by
      funext r
      simp [Function.comp, salaryKey_addDefaultScore]
    rw [List.filter_map, List.filter_map, hcomp, filter_sortKeyDesc]

/-- Witness for C6 at a concrete two-profile catalog. -/
theorem C6_witness :
    (recommendCareer [lowSalaryProfile, highSalaryProfile] []).2.Pairwise
      (fun a b => salaryKey b ≤ salaryKey a) :=
  (C6_empty_answers_salary_order [lowSalaryProfile, highSalaryProfile] (by decide)).2.1

/-- Claim C7 refuted.  With the empty answer dict the returned record of a
score-free catalog gets score 0, which is below the claimed floor of 1. -/
theorem C7_counterexample :
    ¬ ∀ rec ∈ (recommendCareer [blankProfile] []).2, 1 ≤ scoreKey rec := by decide

/-- Claim C7 (corrected statement).  The floor of 1 holds for every profile
whenever the answer dict is non-empty; with the empty answer dict the code
assigns 0 instead. -/
theorem C7_score_floor_amended :
    ∀ (catalog : List CareerProfile) (ua : AnswerSet), ua ≠ [] →
      ∀ rec ∈ (recommendCareer catalog ua).2, 1 ≤ scoreKey rec := by
  intro catalog ua h rec hrec
  rw [recommendCareer_of_ne catalog ua h] at hrec
  rcases List.mem_map.mp ((mem_sortKeyDesc scoreKey _ rec).mp hrec) with ⟨p, _, rfl⟩
  exact (scoreProfile_bounds ua p).1

/-- Witness for C7: a profile with no matches still scores at least 1. -/
theorem C7_witness :
    1 ≤ scoreKey (applyScore scenarioBAnswers blankProfile) :=
  C7_score_floor_amended [blankProfile] scenarioBAnswers (by decide)
    (applyScore scenarioBAnswers blankProfile) (by decide)

/-- Claim C8.  A profile with absent optional matching fields scores exactly
as if those fields were present and empty (the scorer is total, so nothing is
raised), and every catalog entry still surfaces in the output, annotated
according to the branch taken. -/
theorem C8_missing_fields_graceful :
    (∀ (ua : AnswerSet) (rec : CareerProfile),
        scoreProfile ua rec = scoreProfile ua (fillEmptyFields rec)) ∧
      ∀ (catalog : List CareerProfile) (ua : AnswerSet) (rec : CareerProfile),
        rec ∈ catalog → annotateOne ua rec ∈ (recommendCareer catalog ua).2 := by
  constructor
  · intro ua rec
    rfl
  · intro catalog ua rec hrec
    unfold recommendCareer annotateOne
    split_ifs
    · exact List.mem_map.mpr ⟨rec, (mem_sortKeyDesc salaryKey catalog rec).mpr hrec, rfl⟩
    · exact (mem_sortKeyDesc scoreKey _ _).mpr (List.mem_map.mpr ⟨rec, hrec, rfl⟩)

/-- Witness for C8: the all-fields-absent profile flows through the
personalized branch into the output. -/
theorem C8_witness :
    annotateOne scenarioBAnswers blankProfile ∈
      (recommendCareer [blankProfile] scenarioBAnswers).2 :=
  C8_missing_fields_graceful.2 [blankProfile] scenarioBAnswers blankProfile (by decide)

/-- Claim C9.  The scorer is a pure function of its two inputs: any two calls
on the same catalog and answers return the same pair. -/
theorem C9_deterministic :
    ∀ (catalog : List CareerProfile) (ua : AnswerSet)
      (out1 out2 : List CareerProfile × List CareerProfile),
      out1 = recommendCareer catalog ua → out2 = recommendCareer catalog ua →
      out1 = out2 := by
  intro catalog ua out1 out2 h1 h2
  rw [h1, h2]

/-- Witness for C9 at a concrete call. -/
theorem C9_witness :
    recommendCareer [blankProfile] scenarioBAnswers =
      recommendCareer [blankProfile] scenarioBAnswers :=
  C9_deterministic [blankProfile] scenarioBAnswers _ _ rfl rfl

/-- Claim C10.  With a non-empty answer dict every returned score lies in
1..20: at most one of the two q4 rules and at most one of the two q5 rules
can fire, so the total is at most 3+3+2+4+3+5, and the floor gives at
least 1. -/
theorem C10_score_range :
    ∀ (catalog : List CareerProfile) (ua : AnswerSet), ua ≠ [] →
      ∀ rec ∈ (recommendCareer catalog ua).2,
        1 ≤ scoreKey rec ∧ scoreKey rec ≤ 20 := by
  intro catalog ua h rec hrec
  rw [recommendCareer_of_ne catalog ua h] at hrec
  rcases List.mem_map.mp ((mem_sortKeyDesc scoreKey _ rec).mp hrec) with ⟨p, _, rfl⟩
  exact scoreProfile_bounds ua p

/-- Witness for C10 at Scenario B. -/
theorem C10_witness :
    1 ≤ scoreKey (applyScore scenarioBAnswers scenarioBProfile) ∧
      scoreKey (applyScore scenarioBAnswers scenarioBProfile) ≤ 20 :=
  C10_score_range [scenarioBProfile] scenarioBAnswers (by decide)
    (applyScore scenarioBAnswers scenarioBProfile) (by decide)
